import Mathlib

/-
Verification of the chat client in src/frontend/src/App.js (fchat).

The client is a single React component.  Its state (React useState hooks),
its WebSocket handlers (onopen / onmessage / onclose / onerror), the
sendMessage and handleRegister operations and the initial loadMessages call
are shallowly embedded below as pure functions over an explicit AppState.
Network and browser side effects (outgoing frames, HTTP requests, alert,
console logging, opening a socket) are returned as an explicit list of
Effect values.  Server responses are passed in as parameters, since the
server is outside the repository.
-/

namespace FChat

/-- A registered user, as returned by POST /api/register: {id, username}. -/
structure User where
  id : String
  username : String
deriving Repr, DecidableEq

/-- A chat message: {id, user_id, username, content, timestamp}.
The timestamp is kept as the raw string the frame carries. -/
structure Message where
  id : String
  user_id : String
  username : String
  content : String
  timestamp : String
deriving Repr, DecidableEq

/-- An outbound WebSocket frame, as built in sendMessage:
JSON.stringify({type: 'message', content: ...}). -/
structure OutFrame where
  type : String
  content : String
deriving Repr, DecidableEq

/-- The data of an inbound WebSocket frame after JSON.parse.  The handler
reads data.type and then the payload fields; fields a given frame does not
carry are simply never read on that path, so one record with all fields
models the parsed JSON object. -/
structure InData where
  type : String
  id : String
  user_id : String
  username : String
  content : String
  timestamp : String
  users : List User
deriving Repr, DecidableEq

/-- The WebSocket object created by connectWebSocket, identified by the
parameters of its URL /api/ws/{user_id}?username={username}. -/
structure WSConn where
  userId : String
  username : String
deriving Repr, DecidableEq

/-- The body of the registration request: {username: username.trim()}. -/
structure RegisterRequest where
  username : String
deriving Repr, DecidableEq

/-- Outcome of the awaited POST /api/register: either response.data (a User)
or an error whose response may carry a detail string
(error.response?.data?.detail; none models an absent field). -/
inductive RegisterResponse where
  | ok (u : User)
  | err (detail : Option String)
deriving Repr, DecidableEq

/-- Outcome of the awaited GET /api/messages. -/
inductive MessagesResponse where
  | ok (ms : List Message)
  | err (e : String)
deriving Repr, DecidableEq

/-- Observable side effects of the handlers, in program order. -/
inductive Effect where
  | outbound (f : OutFrame)
  | connect (userId uname : String)
  | alert (msg : String)
  | httpRegister (r : RegisterRequest)
  | httpGetMessages
  | log (msg : String)
deriving Repr, DecidableEq

/-- Whitespace as trimmed by JavaScript String.prototype.trim (the ASCII
part: space, tab, line feed, carriage return, vertical tab, form feed). -/
def jsWhite (c : Char) : Bool :=
  c = ' ' || c = '\t' || c = '\n' || c = '\r' || c = '\x0b' || c = '\x0c'

/-- Drop jsWhite characters from both ends of a character list. -/
def trimList (l : List Char) : List Char :=
  ((l.dropWhile jsWhite).reverse.dropWhile jsWhite).reverse

/-- JavaScript String.prototype.trim. -/
def jsTrim (s : String) : String :=
  ⟨trimList s.data⟩

/-- The component state: the useState hooks of App, plus the ws variable
(none until connectWebSocket runs). -/
structure AppState where
  currentUser : Option User
  username : String
  messages : List Message
  newMessage : String
  onlineUsers : List User
  ws : Option WSConn
  isConnected : Bool
  registering : Bool
deriving Repr, DecidableEq

/-- The initial hook values: useState(null), useState(''), useState([]),
useState(''), useState([]), ws null, useState(false), useState(false). -/
def initialState : AppState :=
  { currentUser := none
    username := ""
    messages := []
    newMessage := ""
    onlineUsers := []
    ws := none
    isConnected := false
    registering := false }

/-- websocket.onopen: log and setIsConnected(true). -/
def onopen (s : AppState) : AppState × List Effect :=
  ({ s with isConnected := true }, [.log "WebSocket connected"])

/-- websocket.onmessage: parse the frame, then dispatch on data.type.
'message' appends the payload to messages; 'users_online' replaces
onlineUsers with data.users; any other tag falls through the if/else-if
chain and does nothing. -/
def onmessage (s : AppState) (d : InData) : AppState :=
  if d.type = "message" then
    { s with messages :=
        s.messages ++ [⟨d.id, d.user_id, d.username, d.content, d.timestamp⟩] }
  else if d.type = "users_online" then
    { s with onlineUsers := d.users }
  else
    s

/-- websocket.onclose: log and setIsConnected(false). -/
def onclose (s : AppState) : AppState × List Effect :=
  ({ s with isConnected := false }, [.log "WebSocket disconnected"])

/-- websocket.onerror: log the error and setIsConnected(false). -/
def onerror (s : AppState) : AppState × List Effect :=
  ({ s with isConnected := false }, [.log "WebSocket error"])

/-- connectWebSocket(userId, username): create the socket for
/api/ws/{userId}?username={username} and setWs(websocket).  It does not
touch isConnected; only the onopen hook sets it true. -/
def connectWebSocket (s : AppState) (userId uname : String) :
    AppState × List Effect :=
  ({ s with ws := some ⟨userId, uname⟩ }, [.connect userId uname])

/-- sendMessage: if (!newMessage.trim() || !ws || !isConnected) return;
otherwise ws.send({type: 'message', content: newMessage.trim()}) and
setNewMessage('').  The outbound frames are returned alongside the state. -/
def sendMessage (s : AppState) : AppState × List OutFrame :=
  if jsTrim s.newMessage = "" ∨ s.ws = none ∨ s.isConnected = false then
    (s, [])
  else
    ({ s with newMessage := "" }, [⟨"message", jsTrim s.newMessage⟩])

/-- The string passed to alert on registration failure:
error.response?.data?.detail || 'Registration failed'.  An absent detail
(none) and an empty detail are both falsy in JavaScript. -/
def registerAlertMsg (detail : Option String) : String :=
  match detail with
  | some m => if m = "" then "Registration failed" else m
  | none => "Registration failed"

/-- handleRegister: if (!username.trim()) return; otherwise
setRegistering(true), await POST /api/register {username: username.trim()}
(the response is the resp parameter), on success setCurrentUser(user) and
connectWebSocket(user.id, user.username), on failure alert the detail,
and finally setRegistering(false). -/
def handleRegister (s : AppState) (resp : RegisterResponse) :
    AppState × List Effect :=
  if jsTrim s.username = "" then
    (s, [])
  else
    match resp with
    | .ok u =>
        let su := { s with currentUser := some u, registering := false }
        let c := connectWebSocket su u.id u.username
        (c.1, .httpRegister ⟨jsTrim s.username⟩ :: c.2)
    | .err d =>
        ({ s with registering := false },
         [.httpRegister ⟨jsTrim s.username⟩, .alert (registerAlertMsg d)])

/-- loadMessages: await GET /api/messages (the response is the resp
parameter); on success setMessages(response.data); on failure only
console.error, leaving the state untouched. -/
def loadMessages (s : AppState) (resp : MessagesResponse) :
    AppState × List Effect :=
  match resp with
  | .ok ms => ({ s with messages := ms }, [.httpGetMessages])
  | .err e => (s, [.httpGetMessages, .log ("Failed to load messages: " ++ e)])

/-- The events the component reacts to: the four transport hooks, the two
user interactions on the chat screen, typing into the two inputs, invoking
registration, and the initial bulk load. -/
inductive Event where
  | wsOpen
  | wsMessage (d : InData)
  | wsClose
  | wsError
  | userSend
  | userSetInput (t : String)
  | userSetUsername (t : String)
  | register (resp : RegisterResponse)
  | load (resp : MessagesResponse)
deriving Repr, DecidableEq

/-- One step of the component: dispatch the event to the handler it is
wired to and collect the emitted effects. -/
def step (s : AppState) : Event → AppState × List Effect
  | .wsOpen => onopen s
  | .wsMessage d => (onmessage s d, [])
  | .wsClose => onclose s
  | .wsError => onerror s
  | .userSend =>
      let r := sendMessage s
      (r.1, r.2.map Effect.outbound)
  | .userSetInput t => ({ s with newMessage := t }, [])
  | .userSetUsername t => ({ s with username := t }, [])
  | .register resp => handleRegister s resp
  | .load resp => loadMessages s resp

/-- Run a sequence of events from a state, accumulating all effects. -/
def runE (s : AppState) : List Event → AppState × List Effect
  | [] => (s, [])
  | e :: es =>
      let r := step s e
      let r2 := runE r.1 es
      (r2.1, r.2 ++ r2.2)

/-- Modelled from the spec: the channel state machine of section 4.2.
Connected is the state after the open hook has fired on an existing
socket: a socket exists and it has reported itself connected. -/
def Connected (s : AppState) : Prop :=
  s.ws ≠ none ∧ s.isConnected = true

/-- Modelled from the spec: the Disconnected channel state, the initial
state and the state after close or error. -/
def Disconnected (s : AppState) : Prop :=
  s.isConnected = false

/-! Helper lemmas shared by the claim theorems. -/

lemma trimList_eq_nil_of_white (l : List Char) (h : ∀ c ∈ l, jsWhite c = true) :
    trimList l = [] := by
  unfold trimList
  rw [List.dropWhile_eq_nil_iff.mpr h]
  rfl

lemma jsTrim_eq_empty_of_white (s : String) (h : ∀ c ∈ s.data, jsWhite c = true) :
    jsTrim s = "" := by
  unfold jsTrim
  rw [trimList_eq_nil_of_white _ h]

lemma onmessage_isConnected (s : AppState) (d : InData) :
    (onmessage s d).isConnected = s.isConnected := by
  unfold onmessage
  split
  · rfl
  · split
    · rfl
    · rfl

lemma sendMessage_isConnected (s : AppState) :
    (sendMessage s).1.isConnected = s.isConnected := by
  unfold sendMessage
  split
  · rfl
  · rfl

lemma handleRegister_isConnected (s : AppState) (resp : RegisterResponse) :
    (handleRegister s resp).1.isConnected = s.isConnected := by
  unfold handleRegister connectWebSocket
  split
  · rfl
  · cases resp
    · rfl
    · rfl

lemma loadMessages_isConnected (s : AppState) (resp : MessagesResponse) :
    (loadMessages s resp).1.isConnected = s.isConnected := by
  cases resp
  · rfl
  · rfl

lemma sendMessage_not_connected (s : AppState) (h : s.isConnected = false) :
    sendMessage s = (s, []) := by
  unfold sendMessage
  rw [if_pos (Or.inr (Or.inr h))]

lemma handleRegister_no_outbound (s : AppState) (resp : RegisterResponse) :
    ∀ f, Effect.outbound f ∉ (handleRegister s resp).2 := by
  intro f
  unfold handleRegister connectWebSocket
  split
  · simp
  · cases resp
    · simp
    · simp

lemma step_no_open (s : AppState) (e : Event) (hc : s.isConnected = false)
    (he : e ≠ Event.wsOpen) :
    (step s e).1.isConnected = false ∧ ∀ f, Effect.outbound f ∉ (step s e).2 := by
  cases e with
  | wsOpen => exact absurd rfl he
  | wsMessage d =>
      exact ⟨(onmessage_isConnected s d).trans hc, by intro f hf; simp [step] at hf⟩
  | wsClose => exact ⟨rfl, by intro f hf; simp [step, onclose] at hf⟩
  | wsError => exact ⟨rfl, by intro f hf; simp [step, onerror] at hf⟩
  | userSend =>
      refine ⟨(sendMessage_isConnected s).trans hc, ?_⟩
      intro f hf
      have hsend : sendMessage s = (s, []) := sendMessage_not_connected s hc
      simp [step, hsend] at hf
  | userSetInput t => exact ⟨hc, by intro f hf; simp [step] at hf⟩
  | userSetUsername t => exact ⟨hc, by intro f hf; simp [step] at hf⟩
  | register resp =>
      exact ⟨(handleRegister_isConnected s resp).trans hc,
             handleRegister_no_outbound s resp⟩
  | load resp =>
      refine ⟨(loadMessages_isConnected s resp).trans hc, ?_⟩
      intro f hf
      cases resp
      · simp [step, loadMessages] at hf
      · simp [step, loadMessages] at hf

lemma step_no_connect (s : AppState) (e : Event)
    (he : ∀ r, e ≠ Event.register r) :
    ∀ uid un, Effect.connect uid un ∉ (step s e).2 := by
  intro uid un hf
  cases e with
  | wsOpen => simp [step, onopen] at hf
  | wsMessage d => simp [step] at hf
  | wsClose => simp [step, onclose] at hf
  | wsError => simp [step, onerror] at hf
  | userSend => simp [step] at hf
  | userSetInput t => simp [step] at hf
  | userSetUsername t => simp [step] at hf
  | register resp => exact absurd rfl (he resp)
  | load resp =>
      cases resp
      · simp [step, loadMessages] at hf
      · simp [step, loadMessages] at hf

lemma runE_no_open (s : AppState) (evs : List Event) (hc : s.isConnected = false)
    (hopen : ∀ e ∈ evs, e ≠ Event.wsOpen) :
    (runE s evs).1.isConnected = false
      ∧ ∀ f, Effect.outbound f ∉ (runE s evs).2 := by
  induction evs generalizing s with
  | nil => exact ⟨hc, by intro f hf; simp [runE] at hf⟩
  | cons e es ih =>
      have h1 := step_no_open s e hc (hopen e (List.mem_cons_self e es))
      have h2 := ih (step s e).1 h1.1 (fun x hx => hopen x (List.mem_cons_of_mem e hx))
      refine ⟨h2.1, ?_⟩
      intro f hf
      rcases List.mem_append.mp hf with hf1 | hf2
      · exact h1.2 f hf1
      · exact h2.2 f hf2

lemma runE_no_connect (s : AppState) (evs : List Event)
    (hreg : ∀ e ∈ evs, ∀ r, e ≠ Event.register r) :
    ∀ uid un, Effect.connect uid un ∉ (runE s evs).2 := by
  induction evs generalizing s with
  | nil => intro uid un hf; simp [runE] at hf
  | cons e es ih =>
      intro uid un hf
      rcases List.mem_append.mp hf with hf1 | hf2
      · exact step_no_connect s e (hreg e (List.mem_cons_self e es)) uid un hf1
      · exact ih (step s e).1 (fun x hx => hreg x (List.mem_cons_of_mem e hx)) uid un hf2

/-! The claim theorems. -/

/-- C1: for every inbound frame whose type tag is "message" carrying fields
id, user_id, username, content, timestamp, handling the frame appends
exactly one entry equal to that payload at the end of the message list, and
the existing entries are unchanged and keep their order (all other view
state is also untouched). -/
theorem C1_message_frame_appends (s : AppState) (d : InData)
    (h : d.type = "message") :
    (onmessage s d).messages
        = s.messages ++ [⟨d.id, d.user_id, d.username, d.content, d.timestamp⟩]
      ∧ (onmessage s d).messages.length = s.messages.length + 1
      ∧ (onmessage s d).messages.take s.messages.length = s.messages
      ∧ (onmessage s d).messages.getLast?
          = some ⟨d.id, d.user_id, d.username, d.content, d.timestamp⟩
      ∧ (onmessage s d).onlineUsers = s.onlineUsers
      ∧ (onmessage s d).currentUser = s.currentUser
      ∧ (onmessage s d).isConnected = s.isConnected
      ∧ (onmessage s d).newMessage = s.newMessage := by
  have hm : onmessage s d
      = { s with messages :=
            s.messages ++ [⟨d.id, d.user_id, d.username, d.content, d.timestamp⟩] } := by
    unfold onmessage
    rw [if_pos h]
  rw [hm]
  exact ⟨rfl, by simp, List.take_left _ _, List.getLast?_concat _, rfl, rfl, rfl, rfl⟩

/-- Witness for C1 at a concrete prior list and frame. -/
theorem C1_message_frame_appends_witness :
    (⟨"message", "m1", "u2", "bob", "hi", "T1", []⟩ : InData).type = "message"
      ∧ (onmessage { initialState with messages := [⟨"m0", "u1", "alice", "old", "T0"⟩] }
            ⟨"message", "m1", "u2", "bob", "hi", "T1", []⟩).messages
          = [⟨"m0", "u1", "alice", "old", "T0"⟩, ⟨"m1", "u2", "bob", "hi", "T1"⟩] := by
  refine ⟨rfl, ?_⟩
  have h := (C1_message_frame_appends
      { initialState with messages := [⟨"m0", "u1", "alice", "old", "T0"⟩] }
      ⟨"message", "m1", "u2", "bob", "hi", "T1", []⟩ rfl).1
  simpa using h

/-- C2: invoking send with input "hello" while the channel state is
Connected produces exactly one outbound frame {type: "message",
content: "hello"} and clears the input field; invoking it while
Disconnected produces no outbound frame. -/
theorem C2_send_hello (s : AppState) (hin : s.newMessage = "hello") :
    (Connected s →
        sendMessage s = ({ s with newMessage := "" }, [⟨"message", "hello"⟩]))
      ∧ (Disconnected s → (sendMessage s).2 = []) := by
  constructor
  · intro hconn
    obtain ⟨hws, hc⟩ := hconn
    have hne : ¬ (jsTrim s.newMessage = "" ∨ s.ws = none ∨ s.isConnected = false) := by
      rintro (h | h | h)
      · rw [hin] at h
        exact absurd h (by decide)
      · exact hws h
      · rw [hc] at h
        cases h
    unfold sendMessage
    rw [if_neg hne, hin]
    have htrim : jsTrim "hello" = "hello" := by decide
    rw [htrim]
  · intro hd
    have h := sendMessage_not_connected s hd
    rw [h]

/-- Witness for C2: a concrete Connected state and a concrete Disconnected
state with input "hello". -/
theorem C2_send_hello_witness :
    sendMessage { initialState with
        newMessage := "hello", ws := some ⟨"u1", "alice"⟩, isConnected := true }
        = ({ initialState with
              newMessage := "", ws := some ⟨"u1", "alice"⟩, isConnected := true },
           [⟨"message", "hello"⟩])
      ∧ (sendMessage { initialState with newMessage := "hello" }).2 = [] := by
  constructor
  · exact (C2_send_hello { initialState with
        newMessage := "hello", ws := some ⟨"u1", "alice"⟩, isConnected := true }
        rfl).1 ⟨by decide, rfl⟩
  · exact (C2_send_hello { initialState with newMessage := "hello" } rfl).2 rfl

/-- C3: for every inbound frame whose type tag is "users_online" carrying a
users list, handling the frame replaces the presence set wholesale with
exactly that list, discarding any prior roster regardless of its contents,
and leaves the rest of the state untouched. -/
theorem C3_users_online_replaces (s : AppState) (d : InData)
    (h : d.type = "users_online") :
    (onmessage s d).onlineUsers = d.users
      ∧ (onmessage s d).messages = s.messages
      ∧ (onmessage s d).currentUser = s.currentUser
      ∧ (onmessage s d).isConnected = s.isConnected
      ∧ (onmessage s d).newMessage = s.newMessage
      ∧ (onmessage s d).ws = s.ws := by
  have hne : ¬ d.type = "message" := by
    rw [h]
    decide
  have hm : onmessage s d = { s with onlineUsers := d.users } := by
    unfold onmessage
    rw [if_neg hne, if_pos h]
  rw [hm]
  exact ⟨rfl, rfl, rfl, rfl, rfl, rfl⟩

/-- Witness for C3: a concrete prior roster is discarded for the new one. -/
theorem C3_users_online_replaces_witness :
    (⟨"users_online", "", "", "", "", "", [⟨"u2", "bob"⟩]⟩ : InData).type = "users_online"
      ∧ (onmessage { initialState with onlineUsers := [⟨"u1", "alice"⟩, ⟨"u3", "carol"⟩] }
            ⟨"users_online", "", "", "", "", "", [⟨"u2", "bob"⟩]⟩).onlineUsers
          = [⟨"u2", "bob"⟩] := by
  refine ⟨rfl, ?_⟩
  exact (C3_users_online_replaces
      { initialState with onlineUsers := [⟨"u1", "alice"⟩, ⟨"u3", "carol"⟩] }
      ⟨"users_online", "", "", "", "", "", [⟨"u2", "bob"⟩]⟩ rfl).1

/-- C6: for every username string that is empty or consists only of
whitespace, invoking the registration operation issues no network call and
leaves all state unchanged, whatever the server would have answered. -/
theorem C6_blank_username_no_request (s : AppState) (resp : RegisterResponse)
    (h : ∀ c ∈ s.username.data, jsWhite c = true) :
    handleRegister s resp = (s, []) := by
  unfold handleRegister
  rw [if_pos (jsTrim_eq_empty_of_white s.username h)]

/-- Witness for C6 at a whitespace-only username. -/
theorem C6_blank_username_no_request_witness :
    (∀ c ∈ (" \t " : String).data, jsWhite c = true)
      ∧ handleRegister { initialState with username := " \t " } (.err none)
          = ({ initialState with username := " \t " }, []) := by
  refine ⟨by decide, ?_⟩
  exact C6_blank_username_no_request { initialState with username := " \t " }
    (.err none) (by decide)

/-- C7: for every inbound frame whose type tag is neither "message" nor
"users_online", handling the frame raises no error (the handler is total)
and leaves all view state unchanged. -/
theorem C7_unknown_tag_ignored (s : AppState) (d : InData)
    (h1 : d.type ≠ "message") (h2 : d.type ≠ "users_online") :
    onmessage s d = s := by
  unfold onmessage
  rw [if_neg h1, if_neg h2]

/-- Witness for C7 at a concrete unknown tag. -/
theorem C7_unknown_tag_ignored_witness :
    (⟨"typing", "", "", "", "", "", []⟩ : InData).type ≠ "message"
      ∧ (⟨"typing", "", "", "", "", "", []⟩ : InData).type ≠ "users_online"
      ∧ onmessage initialState ⟨"typing", "", "", "", "", "", []⟩ = initialState := by
  exact ⟨by decide, by decide,
    C7_unknown_tag_ignored initialState ⟨"typing", "", "", "", "", "", []⟩
      (by decide) (by decide)⟩

/-- C9: when the initial bulk message load fails, the error is only logged:
the state (in particular the message list) is unchanged, the only effects
are the single request and a console log, and no alert is raised. -/
theorem C9_load_failure_logged_only (s : AppState) (e : String) :
    (loadMessages s (.err e)).1 = s
      ∧ (loadMessages s (.err e)).1.messages = s.messages
      ∧ (loadMessages s (.err e)).2
          = [Effect.httpGetMessages, Effect.log ("Failed to load messages: " ++ e)]
      ∧ (∀ msg, Effect.alert msg ∉ (loadMessages s (.err e)).2) := by
  refine ⟨rfl, rfl, rfl, ?_⟩
  intro msg hmem
  simp [loadMessages] at hmem

/-- Witness for C9 at a concrete state and error. -/
theorem C9_load_failure_logged_only_witness :
    (loadMessages { initialState with username := "alice" } (.err "timeout")).1
        = { initialState with username := "alice" }
      ∧ Effect.alert "timeout" ∉
          (loadMessages { initialState with username := "alice" } (.err "timeout")).2 := by
  have h := C9_load_failure_logged_only { initialState with username := "alice" } "timeout"
  exact ⟨h.1, h.2.2.2 "timeout"⟩

/-- C10: sending a whitespace-only (or empty) input is a no-op even while
Connected: no frame is produced and the input field is not cleared; and for
any input whose trim is non-empty, the outbound frame carries the trimmed
content rather than the raw input. -/
theorem C10_send_trims_input (s : AppState) :
    ((∀ c ∈ s.newMessage.data, jsWhite c = true) → sendMessage s = (s, []))
      ∧ (jsTrim s.newMessage ≠ "" → s.ws ≠ none → s.isConnected = true →
          (sendMessage s).2 = [⟨"message", jsTrim s.newMessage⟩]
            ∧ (sendMessage s).1.newMessage = "") := by
  constructor
  · intro h
    unfold sendMessage
    rw [if_pos (Or.inl (jsTrim_eq_empty_of_white s.newMessage h))]
  · intro h1 h2 h3
    have hne : ¬ (jsTrim s.newMessage = "" ∨ s.ws = none ∨ s.isConnected = false) := by
      rintro (h | h | h)
      · exact h1 h
      · exact h2 h
      · exact Bool.noConfusion (h3.symm.trans h)
    unfold sendMessage
    rw [if_neg hne]
    exact ⟨rfl, rfl⟩

/-- Witness for C10: a whitespace-only input is not sent and not cleared
even while Connected, and an input with surrounding whitespace goes out
trimmed. -/
theorem C10_send_trims_input_witness :
    sendMessage { initialState with
        newMessage := "  ", ws := some ⟨"u1", "alice"⟩, isConnected := true }
        = ({ initialState with
              newMessage := "  ", ws := some ⟨"u1", "alice"⟩, isConnected := true }, [])
      ∧ (sendMessage { initialState with
            newMessage := " hi ", ws := some ⟨"u1", "alice"⟩, isConnected := true }).2
          = [⟨"message", "hi"⟩]
      ∧ (sendMessage { initialState with
            newMessage := " hi ", ws := some ⟨"u1", "alice"⟩, isConnected := true }).1.newMessage
          = "" := by
  refine ⟨(C10_send_trims_input _).1 (by decide), ?_, ?_⟩
  · have h := (C10_send_trims_input { initialState with
        newMessage := " hi ", ws := some ⟨"u1", "alice"⟩, isConnected := true }).2
        (by decide) (by decide) rfl
    rw [h.1]
    decide
  · exact ((C10_send_trims_input { initialState with
        newMessage := " hi ", ws := some ⟨"u1", "alice"⟩, isConnected := true }).2
        (by decide) (by decide) rfl).2

/-- C4: after a transport close or error event the channel state is
Disconnected, and along any subsequent event sequence that contains no open
event the state stays Disconnected and no send produces an outbound frame;
moreover no connection is ever opened unless a registration event occurs
(no automatic reconnection). -/
theorem C4_close_strands_session (s : AppState) (evs : List Event)
    (hc : s.isConnected = false)
    (hopen : ∀ e ∈ evs, e ≠ Event.wsOpen) :
    (∀ t : AppState,
        (step t Event.wsClose).1.isConnected = false
          ∧ (step t Event.wsError).1.isConnected = false)
      ∧ Disconnected (runE s evs).1
      ∧ (∀ f, Effect.outbound f ∉ (runE s evs).2)
      ∧ ((∀ e ∈ evs, ∀ r, e ≠ Event.register r) →
          ∀ uid un, Effect.connect uid un ∉ (runE s evs).2) := by
  have h := runE_no_open s evs hc hopen
  exact ⟨fun t => ⟨rfl, rfl⟩, h.1, h.2, fun hreg => runE_no_connect s evs hreg⟩

/-- Witness for C4: after a close, a frame arrival, input typing and a send
attempt leave the session Disconnected and emit no outbound frame. -/
theorem C4_close_strands_session_witness :
    initialState.isConnected = false
      ∧ Disconnected (runE initialState
          [Event.userSetInput "hello", Event.userSend, Event.wsClose]).1
      ∧ (∀ f, Effect.outbound f ∉ (runE initialState
          [Event.userSetInput "hello", Event.userSend, Event.wsClose]).2) := by
  have h := C4_close_strands_session initialState
    [Event.userSetInput "hello", Event.userSend, Event.wsClose] rfl (by decide)
  exact ⟨rfl, h.2.1, h.2.2.1⟩

/-- C5: after a successful registration returning {id: "u1", username:
"alice"}, the channel is opened parameterized with exactly that id and that
username, the registered user becomes the current user, and no message can
be sent until the channel has reported the open event: the connected flag
starts false, registration does not change it, sends while it is false emit
nothing, and only the open event can turn it true. -/
theorem C5_register_opens_channel (s : AppState)
    (hu : ¬ jsTrim s.username = "") :
    (handleRegister s (.ok ⟨"u1", "alice"⟩)).1.ws = some ⟨"u1", "alice"⟩
      ∧ Effect.connect "u1" "alice" ∈ (handleRegister s (.ok ⟨"u1", "alice"⟩)).2
      ∧ (handleRegister s (.ok ⟨"u1", "alice"⟩)).1.currentUser = some ⟨"u1", "alice"⟩
      ∧ (handleRegister s (.ok ⟨"u1", "alice"⟩)).1.isConnected = s.isConnected
      ∧ initialState.isConnected = false
      ∧ (∀ t : AppState, t.isConnected = false → (sendMessage t).2 = [])
      ∧ (∀ (t : AppState) (e : Event),
          (step t e).1.isConnected = true → t.isConnected = true ∨ e = Event.wsOpen) := by
  have hr : handleRegister s (.ok ⟨"u1", "alice"⟩)
      = ({ s with
            currentUser := some ⟨"u1", "alice"⟩
            registering := false
            ws := some ⟨"u1", "alice"⟩ },
         [.httpRegister ⟨jsTrim s.username⟩, .connect "u1" "alice"]) := by
    unfold handleRegister connectWebSocket
    rw [if_neg hu]
  refine ⟨by rw [hr], by rw [hr]; simp, by rw [hr], by rw [hr], rfl, ?_, ?_⟩
  · intro t ht
    rw [sendMessage_not_connected t ht]
  · intro t e h
    cases e with
    | wsOpen => exact Or.inr rfl
    | wsMessage d => exact Or.inl ((onmessage_isConnected t d).symm.trans h)
    | wsClose => exact absurd h (by simp [step, onclose])
    | wsError => exact absurd h (by simp [step, onerror])
    | userSend => exact Or.inl ((sendMessage_isConnected t).symm.trans h)
    | userSetInput t0 => exact Or.inl h
    | userSetUsername t0 => exact Or.inl h
    | register resp => exact Or.inl ((handleRegister_isConnected t resp).symm.trans h)
    | load resp => exact Or.inl ((loadMessages_isConnected t resp).symm.trans h)

/-- Witness for C5 at a concrete pre-registration state: the channel is
opened for u1/alice and the state is still not connected. -/
theorem C5_register_opens_channel_witness :
    (handleRegister { initialState with username := "alice" }
        (.ok ⟨"u1", "alice"⟩)).1.ws = some ⟨"u1", "alice"⟩
      ∧ Effect.connect "u1" "alice" ∈
          (handleRegister { initialState with username := "alice" }
            (.ok ⟨"u1", "alice"⟩)).2
      ∧ (handleRegister { initialState with username := "alice" }
          (.ok ⟨"u1", "alice"⟩)).1.isConnected = false := by
  have h := C5_register_opens_channel { initialState with username := "alice" }
    (by decide)
  exact ⟨h.1, h.2.1, h.2.2.2.1⟩

/-- C8: when the registration request fails with a non-empty detail string,
that server-provided message is surfaced via a blocking alert, no User is
produced and no channel is opened (the current user stays unset and the
socket is unchanged), and re-invoking registration can still succeed: the
retry issues the request again and, on a success response, produces the
user. -/
theorem C8_registration_failure (s : AppState) (m : String)
    (hu : ¬ jsTrim s.username = "") (hm : m ≠ "") (hcu : s.currentUser = none) :
    Effect.alert m ∈ (handleRegister s (.err (some m))).2
      ∧ (handleRegister s (.err (some m))).1.currentUser = none
      ∧ (handleRegister s (.err (some m))).1.ws = s.ws
      ∧ (handleRegister s (.err (some m))).1.username = s.username
      ∧ (∀ u : User,
          (handleRegister (handleRegister s (.err (some m))).1 (.ok u)).1.currentUser
              = some u
            ∧ Effect.httpRegister ⟨jsTrim s.username⟩
                ∈ (handleRegister (handleRegister s (.err (some m))).1 (.ok u)).2) := by
  have halert : registerAlertMsg (some m) = m := by
    simp [registerAlertMsg, hm]
  have hr : handleRegister s (.err (some m))
      = ({ s with registering := false },
         [.httpRegister ⟨jsTrim s.username⟩, .alert m]) := by
    simp [handleRegister, hu, halert]
  refine ⟨by rw [hr]; simp, by rw [hr]; exact hcu, by rw [hr], by rw [hr], ?_⟩
  intro u
  have hu2 : ¬ jsTrim ({ s with registering := false } : AppState).username = "" := hu
  have hr2 : handleRegister ({ s with registering := false }) (.ok u)
      = ({ s with
            registering := false
            currentUser := some u
            ws := some ⟨u.id, u.username⟩ },
         [.httpRegister ⟨jsTrim s.username⟩, .connect u.id u.username]) := by
    unfold handleRegister connectWebSocket
    rw [if_neg hu2]
  rw [hr]
  constructor
  · rw [hr2]
  · rw [hr2]
    simp

/-- Witness for C8: a concrete failed registration surfaces the detail and
a concrete retry succeeds. -/
theorem C8_registration_failure_witness :
    Effect.alert "Username taken" ∈
        (handleRegister { initialState with username := "alice" }
          (.err (some "Username taken"))).2
      ∧ (handleRegister { initialState with username := "alice" }
          (.err (some "Username taken"))).1.currentUser = none
      ∧ (handleRegister
            (handleRegister { initialState with username := "alice" }
              (.err (some "Username taken"))).1
            (.ok ⟨"u1", "alice"⟩)).1.currentUser = some ⟨"u1", "alice"⟩ := by
  have h := C8_registration_failure { initialState with username := "alice" }
    "Username taken" (by decide) (by decide) rfl
  exact ⟨h.1, h.2.1, (h.2.2.2.2 ⟨"u1", "alice"⟩).1⟩

end FChat
